import Mathlib

/-!
Shallow embedding of porkctl (src/porkctl.py), a CLI managing DNS records at
the Porkbun registrar.  External collaborators (the keyring secret store, the
tldextract public-suffix classifier, the PKBClient registrar client) are
modelled as explicit state / function parameters; each command handler becomes
a pure Lean function returning the trace of registrar calls it issued and the
lines it printed.
-/

namespace Porkctl

/-- Result of the tldextract public-suffix classifier: the three string parts
it splits an FQDN into.  The classifier itself is external, so commands take
it as a function parameter.  Iterating the result (as Python's update handler
does with a bare generator over the named tuple) yields the fields in this
order: subdomain, domain, suffix. -/
structure ExtractResult where
  subdomain : String
  domain : String
  suffix : String
deriving DecidableEq

/-- The keyring secret store restricted to the fixed service id used by the
tool: the two entries keyed by the logical names apikey and apisecret.
A field is none when no password is stored under that key. -/
structure Store where
  apikey : Option String
  apisecret : Option String
deriving DecidableEq

/-- Python str.join with separator "." : empty on the empty list, the sole
element on a singleton, and elements interleaved with single dots otherwise. -/
def joinDot : List String → String
  | [] => ""
  | [p] => p
  | p :: q :: rest => p ++ "." ++ joinDot (q :: rest)

/-- The repeated source idiom: join the given parts with a single dot,
dropping falsy (empty) parts first. -/
def joinNonEmpty (parts : List String) : String :=
  joinDot (parts.filter (fun p => p != ""))

/-- extract_domain_subdomain from the source: classify the name, return the
pair (registrable domain, subdomain) where the registrable domain joins the
classifier's domain and suffix parts, omitting empty ones. -/
def extract_domain_subdomain (tldex : String → ExtractResult)
    (name : String) : String × String :=
  let ext := tldex name
  let subdomain := ext.subdomain
  let domain := joinNonEmpty [ext.domain, ext.suffix]
  (domain, subdomain)

/-- The message raised by get_credentials when a credential field is absent. -/
def loginPrompt : String := "Please login first with: ./porkctl.py auth login"

/-- get_credentials from the source: read both keyring entries; raise the
login prompt when either is absent, otherwise return the pair. -/
def get_credentials (s : Store) : Except String (String × String) :=
  match s.apikey, s.apisecret with
  | some k, some c => Except.ok (k, c)
  | _, _ => Except.error loginPrompt

/-- keyring.get_password for the fixed service id, keyed by the logical
field name. -/
def get_password (s : Store) (field : String) : Option String :=
  if field = "apikey" then s.apikey
  else if field = "apisecret" then s.apisecret
  else none

/-- get_credentials instrumented with the list of keyring queries it issues:
the source body unconditionally reads apikey and then apisecret from the
store on every call (there is no cache in front of the store). -/
def get_credentials_traced (s : Store) :
    Except String (String × String) × List String :=
  let apikey := get_password s "apikey"
  let apisecret := get_password s "apisecret"
  (match apikey, apisecret with
   | some k, some c => Except.ok (k, c)
   | _, _ => Except.error loginPrompt,
   ["apikey", "apisecret"])

/-- Two successive get_credentials calls in one process invocation: both
results, together with the concatenated trace of keyring queries. -/
def get_credentials_twice (s : Store) :
    Except String (String × String) × Except String (String × String) ×
      List String :=
  let r1 := get_credentials_traced s
  let r2 := get_credentials_traced s
  (r1.1, r2.1, r1.2 ++ r2.2)

/-- login from the source.  pingResp is the outcome of client.ping (error
when it raised).  b1 and b2 say whether the two keyring.set_password calls
succeed, injecting secret-store faults.  Returns the final store and the
printed message, none when an uncaught store exception escapes the handler.
The verification check is literally Python's test that the response string
contains a dot. -/
def login (pingResp : Except String String) (b1 b2 : Bool)
    (apikey apisecret : String) (s : Store) : Store × Option String :=
  match pingResp with
  | Except.error e => (s, some ("Failed to verify credentials: " ++ e))
  | Except.ok response =>
    if !(response.toList.contains '.') then
      (s, some "Invalid credentials. Please try again.")
    else if b1 then
      let s1 : Store := { s with apikey := some apikey }
      if b2 then
        ({ s1 with apisecret := some apisecret }, some "Login successful!")
      else (s1, none)
    else (s, none)

/-- logout from the source: two bare keyring.delete_password calls and a
success print.  keyring.delete_password raises PasswordDeleteError when no
password is stored under the key (the documented keyring backend contract),
and the source catches nothing, so a missing field aborts logout: the
outcome is none (exception escaped) and only deletions already performed
persist. -/
def logout (s : Store) : Store × Option String :=
  match s.apikey with
  | none => (s, none)
  | some _ =>
    let s1 : Store := { s with apikey := none }
    match s1.apisecret with
    | none => (s1, none)
    | some _ => ({ s1 with apisecret := none }, some "Logged out.")

/-- status from the source: logged in iff both keyring entries are present. -/
def status (s : Store) : String :=
  match s.apikey, s.apisecret with
  | some _, some _ => "You are logged in."
  | _, _ => "You are not logged in."

/-- One DNS record as returned by the registrar's retrieve call; the fields
the handlers read from the response dictionaries.  prio and notes are kept
as their rendered strings. -/
structure DNSRecord where
  id : String
  name : String
  type : String
  content : String
  ttl : Nat
  prio : String
  notes : String
deriving DecidableEq

/-- One registrar API call, with the arguments the handler passed. -/
inductive RegCall where
  | ping : RegCall
  | create (domain name rtype content : String) (ttl : Nat) : RegCall
  | retrieve (domain : String) : RegCall
  | edit (recordId domain name rtype content : String) (ttl : Nat) : RegCall
  | delete (domain recordId : String) : RegCall
deriving DecidableEq

/-- Behaviour of the external registrar for one command run: the response to
a retrieve on each domain, and whether the mutating calls succeed or raise. -/
structure RegBehavior where
  retrieveResp : String → Except String (List DNSRecord)
  createResp : Except String Unit
  editResp : Except String Unit
  deleteResp : Except String Unit

/-- The line the list handler prints for one record. -/
def formatRecord (r : DNSRecord) : String :=
  " - ID: " ++ r.id ++ ", Name: " ++ r.name ++ ", Type: " ++ r.type ++
    ", Content: " ++ r.content ++ ", TTL: " ++ toString r.ttl ++
    ", Priority: " ++ r.prio ++ ", Notes: " ++ r.notes

/-- The dns create handler: authenticate, split the FQDN (domain and suffix
parts only), call dns_create with the registrable domain and the subdomain as
the record name, and report.  Returns (registrar call trace, printed lines). -/
def create_cmd (tldex : String → ExtractResult) (reg : RegBehavior)
    (s : Store) (name ty data : String) (ttl : Nat) :
    List RegCall × List String :=
  match get_credentials s with
  | Except.error e => ([], [e])
  | Except.ok _ =>
    let ext := tldex name
    let subdomain := ext.subdomain
    let domain := joinNonEmpty [ext.domain, ext.suffix]
    match reg.createResp with
    | Except.ok _ =>
      ([RegCall.create domain subdomain ty data ttl],
       ["Successfully created DNS record: " ++ name])
    | Except.error e =>
      ([RegCall.create domain subdomain ty data ttl],
       ["Failed to create DNS record: " ++ e])

/-- The dns delete handler: authenticate, split the FQDN, retrieve all
records for the registrable domain, take the id of the first record whose
name equals the given name exactly, and delete it; report not-found without
deleting when none matches. -/
def delete_cmd (tldex : String → ExtractResult) (reg : RegBehavior)
    (s : Store) (name : String) : List RegCall × List String :=
  match get_credentials s with
  | Except.error e => ([], [e])
  | Except.ok _ =>
    let ext := tldex name
    let domain := joinNonEmpty [ext.domain, ext.suffix]
    match reg.retrieveResp domain with
    | Except.error e =>
      ([RegCall.retrieve domain], ["Failed to delete DNS record: " ++ e])
    | Except.ok records =>
      match records.find? (fun r => r.name == name) with
      | none =>
        ([RegCall.retrieve domain],
         ["No DNS record found with name: " ++ name])
      | some r =>
        match reg.deleteResp with
        | Except.ok _ =>
          ([RegCall.retrieve domain, RegCall.delete domain r.id],
           ["Successfully deleted DNS record with name: " ++ name])
        | Except.error e =>
          ([RegCall.retrieve domain, RegCall.delete domain r.id],
           ["Failed to delete DNS record: " ++ e])

/-- The dns list handler: authenticate, retrieve records for the given name
(no decomposition), print a header and one formatted line per record in the
order returned. -/
def list_cmd (reg : RegBehavior) (s : Store) (name : String) :
    List RegCall × List String :=
  match get_credentials s with
  | Except.error e => ([], [e])
  | Except.ok _ =>
    match reg.retrieveResp name with
    | Except.error e =>
      ([RegCall.retrieve name], ["Failed to list DNS records: " ++ e])
    | Except.ok records =>
      ([RegCall.retrieve name],
       ("DNS records for " ++ name ++ ":") :: records.map formatRecord)

/-- The dns update handler.  Note the source joins every part of the
classifier result — the bare generator iterates the whole named tuple, so
the subdomain is included in the domain argument passed to dns_edit, unlike
create and delete which join only domain and suffix. -/
def update_cmd (tldex : String → ExtractResult) (reg : RegBehavior)
    (s : Store) (recordId name ty data : String) (ttl : Nat) :
    List RegCall × List String :=
  match get_credentials s with
  | Except.error e => ([], [e])
  | Except.ok _ =>
    let ext := tldex name
    let subdomain := ext.subdomain
    let domain := joinNonEmpty [ext.subdomain, ext.domain, ext.suffix]
    match reg.editResp with
    | Except.ok _ =>
      ([RegCall.edit recordId domain subdomain ty data ttl],
       ["Successfully updated DNS record: " ++ name])
    | Except.error e =>
      ([RegCall.edit recordId domain subdomain ty data ttl],
       ["Failed to update DNS record: " ++ e])

/-- Split a character list at every dot, keeping empty groups. -/
def splitDots : List Char → List (List Char)
  | [] => [[]]
  | ch :: rest =>
    if ch = '.' then [] :: splitDots rest
    else match splitDots rest with
      | [] => [[ch]]
      | g :: gs => (ch :: g) :: gs

/-- Decimal value of a digit list. -/
def digitsVal (l : List Char) : Nat :=
  l.foldl (fun a ch => a * 10 + (ch.toNat - 48)) 0

/-- Syntactic IPv4 validity, following the wording of the specification
(a syntactically valid IP address): four dot-separated decimal fields, each
nonempty, all digits, and at most 255.  Used only to compare the
specification's verification requirement with the dot test the code runs. -/
def spec_isValidIP (s : String) : Bool :=
  let parts := splitDots s.toList
  parts.length == 4 &&
    parts.all (fun p =>
      decide (0 < p.length) && p.all Char.isDigit &&
        decide (digitsVal p ≤ 255))

/-- A concrete classifier used by witnesses: behaves like tldextract on the
handful of names the examples use. -/
def exTld : String → ExtractResult := fun s =>
  if s = "www.example.com" then ⟨"www", "example", "com"⟩
  else if s = "example.com" then ⟨"", "example", "com"⟩
  else ⟨"", s, ""⟩

/-- A registrar whose retrieve returns no records and whose mutating calls
succeed. -/
def exRegEmpty : RegBehavior :=
  ⟨fun _ => Except.ok [], Except.ok (), Except.ok (), Except.ok ()⟩

/-- A sample record list: two records named www.example.com (round robin)
and one apex record, in registrar order. -/
def exRecords : List DNSRecord :=
  [⟨"1", "www.example.com", "A", "1.1.1.1", 600, "0", "first"⟩,
   ⟨"2", "www.example.com", "A", "2.2.2.2", 600, "0", "second"⟩,
   ⟨"3", "example.com", "A", "3.3.3.3", 600, "0", "apex"⟩]

/-- A registrar returning exRecords on every retrieve, all mutations ok. -/
def exRegFull : RegBehavior :=
  ⟨fun _ => Except.ok exRecords, Except.ok (), Except.ok (), Except.ok ()⟩

/-- List.find? returns the head of the filtered list: the first element,
in order, satisfying the test. -/
theorem find?_eq_head?_filter {α : Type} (p : α → Bool) (l : List α) :
    l.find? p = (l.filter p).head? := by
  induction l with
  | nil => rfl
  | cons a t ih =>
    cases h : p a
    · rw [List.find?_cons, h, List.filter_cons, h]
      exact ih
    · rw [List.find?_cons, h, List.filter_cons, h]
      rfl

/-- C8: the FQDN decomposer is a pure total function: repeated application
returns the identical pair, the subdomain component is the classifier's
subdomain verbatim, and the registrable domain is the classifier's domain
and suffix joined with one dot, either part omitted when empty. -/
theorem decompose_pure_total (tldex : String → ExtractResult) (s : String) :
    extract_domain_subdomain tldex s = extract_domain_subdomain tldex s ∧
    (extract_domain_subdomain tldex s).2 = (tldex s).subdomain ∧
    (extract_domain_subdomain tldex s).1 =
      (if (tldex s).domain = "" then (tldex s).suffix
       else if (tldex s).suffix = "" then (tldex s).domain
       else (tldex s).domain ++ "." ++ (tldex s).suffix) := by
  refine ⟨rfl, rfl, ?_⟩
  show joinNonEmpty [(tldex s).domain, (tldex s).suffix] = _
  by_cases hd : (tldex s).domain = "" <;> by_cases hs : (tldex s).suffix = "" <;>
    simp [joinNonEmpty, List.filter_cons, hd, hs, joinDot]

/-- C4: given the registrar's record list for the registrable domain, if no
record's name equals the given name exactly, delete reports the not-found
message and issues no delete call; when records match, the record whose id
is deleted is the first match in registrar order. -/
theorem delete_resolution (tldex : String → ExtractResult) (reg : RegBehavior)
    (s : Store) (k c name : String) (records : List DNSRecord)
    (hk : s.apikey = some k) (hc : s.apisecret = some c)
    (hret : reg.retrieveResp
        (joinNonEmpty [(tldex name).domain, (tldex name).suffix]) =
      Except.ok records) :
    (records.filter (fun r => r.name == name) = [] →
      delete_cmd tldex reg s name =
        ([RegCall.retrieve
            (joinNonEmpty [(tldex name).domain, (tldex name).suffix])],
         ["No DNS record found with name: " ++ name])) ∧
    ∀ r rest, records.filter (fun r => r.name == name) = r :: rest →
      (delete_cmd tldex reg s name).1 =
        [RegCall.retrieve
           (joinNonEmpty [(tldex name).domain, (tldex name).suffix]),
         RegCall.delete
           (joinNonEmpty [(tldex name).domain, (tldex name).suffix]) r.id] := by
  have hg : get_credentials s = Except.ok (k, c) := by
    simp [get_credentials, hk, hc]
  constructor
  · intro hnone
    have hf : records.find? (fun r => r.name == name) = none := by
      rw [find?_eq_head?_filter, hnone]; rfl
    simp [delete_cmd, hg, hret, hf]
  · intro r rest hfil
    have hf : records.find? (fun r => r.name == name) = some r := by
      rw [find?_eq_head?_filter, hfil]; rfl
    cases hdel : reg.deleteResp <;> simp [delete_cmd, hg, hret, hf, hdel]

/-- Witness for C4: with a store holding both credentials, deleting
www.example.com picks record id 1 (the first of the two records sharing
that name) when records match, and reports not-found with no delete call
against an empty record list. -/
theorem delete_resolution_witness :
    (delete_cmd exTld exRegFull ⟨some "k", some "c"⟩ "www.example.com").1 =
      [RegCall.retrieve "example.com", RegCall.delete "example.com" "1"] ∧
    delete_cmd exTld exRegEmpty ⟨some "k", some "c"⟩ "www.example.com" =
      ([RegCall.retrieve "example.com"],
       ["No DNS record found with name: " ++ "www.example.com"]) := by
  constructor
  · exact (delete_resolution exTld exRegFull ⟨some "k", some "c"⟩ "k" "c"
      "www.example.com" exRecords rfl rfl rfl).2
      ⟨"1", "www.example.com", "A", "1.1.1.1", 600, "0", "first"⟩
      [⟨"2", "www.example.com", "A", "2.2.2.2", 600, "0", "second"⟩] (by rfl)
  · exact (delete_resolution exTld exRegEmpty ⟨some "k", some "c"⟩ "k" "c"
      "www.example.com" [] rfl rfl rfl).1 rfl

/-- C5: with either credential field absent, every DNS command prints the
login prompt and issues zero registrar calls. -/
theorem credential_gating (tldex : String → ExtractResult) (reg : RegBehavior)
    (s : Store) (rid name ty data : String) (ttl : Nat)
    (h : s.apikey = none ∨ s.apisecret = none) :
    create_cmd tldex reg s name ty data ttl = ([], [loginPrompt]) ∧
    delete_cmd tldex reg s name = ([], [loginPrompt]) ∧
    list_cmd reg s name = ([], [loginPrompt]) ∧
    update_cmd tldex reg s rid name ty data ttl = ([], [loginPrompt]) := by
  have hg : get_credentials s = Except.error loginPrompt := by
    rcases h with h | h
    · simp [get_credentials, h]
    · cases hk : s.apikey <;> simp [get_credentials, h, hk]
  exact ⟨by simp [create_cmd, hg], by simp [delete_cmd, hg],
    by simp [list_cmd, hg], by simp [update_cmd, hg]⟩

/-- Witness for C5: a store missing the apikey field makes all four DNS
commands print the login prompt with an empty registrar trace. -/
theorem credential_gating_witness :
    create_cmd exTld exRegEmpty ⟨none, some "c"⟩ "www.example.com" "A"
        "1.2.3.4" 600 = ([], [loginPrompt]) ∧
    delete_cmd exTld exRegEmpty ⟨none, some "c"⟩ "www.example.com" =
      ([], [loginPrompt]) ∧
    list_cmd exRegEmpty ⟨none, some "c"⟩ "www.example.com" =
      ([], [loginPrompt]) ∧
    update_cmd exTld exRegEmpty ⟨none, some "c"⟩ "42" "www.example.com" "A"
        "1.2.3.4" 600 = ([], [loginPrompt]) :=
  credential_gating exTld exRegEmpty ⟨none, some "c"⟩ "42" "www.example.com"
    "A" "1.2.3.4" 600 (Or.inl rfl)

/-- C9: a successful dns list prints the header followed by exactly one
formatted line per returned record, in the registrar's order: the per-record
lines are the map of the formatter over the record list. -/
theorem list_output_order (reg : RegBehavior) (s : Store) (k c name : String)
    (records : List DNSRecord)
    (hk : s.apikey = some k) (hc : s.apisecret = some c)
    (hret : reg.retrieveResp name = Except.ok records) :
    list_cmd reg s name =
      ([RegCall.retrieve name],
       ("DNS records for " ++ name ++ ":") :: records.map formatRecord) := by
  have hg : get_credentials s = Except.ok (k, c) := by
    simp [get_credentials, hk, hc]
  simp [list_cmd, hg, hret]

/-- Witness for C9: listing example.com against the three-record registrar
prints the header and the three formatted lines in registrar order. -/
theorem list_output_order_witness :
    list_cmd exRegFull ⟨some "k", some "c"⟩ "example.com" =
      ([RegCall.retrieve "example.com"],
       ("DNS records for " ++ "example.com" ++ ":") ::
         exRecords.map formatRecord) :=
  list_output_order exRegFull ⟨some "k", some "c"⟩ "k" "c" "example.com"
    exRecords rfl rfl rfl

/-- C10: the create handler sends only the subdomain part as the record
name (with the registrable domain as the domain argument), while the
success message echoes the full FQDN. -/
theorem create_sends_subdomain (tldex : String → ExtractResult)
    (reg : RegBehavior) (s : Store) (k c name ty data : String) (ttl : Nat)
    (hk : s.apikey = some k) (hc : s.apisecret = some c) :
    (create_cmd tldex reg s name ty data ttl).1 =
      [RegCall.create (joinNonEmpty [(tldex name).domain, (tldex name).suffix])
        (tldex name).subdomain ty data ttl] ∧
    (reg.createResp = Except.ok () →
      (create_cmd tldex reg s name ty data ttl).2 =
        ["Successfully created DNS record: " ++ name]) := by
  have hg : get_credentials s = Except.ok (k, c) := by
    simp [get_credentials, hk, hc]
  constructor
  · cases hcr : reg.createResp <;> simp [create_cmd, hg, hcr]
  · intro hcr; simp [create_cmd, hg, hcr]

/-- Witness for C10: creating www.example.com sends record name www with
domain example.com, and reports the full FQDN. -/
theorem create_sends_subdomain_witness :
    (create_cmd exTld exRegEmpty ⟨some "k", some "c"⟩ "www.example.com" "A"
        "9.9.9.9" 600).1 =
      [RegCall.create
        (joinNonEmpty [(exTld "www.example.com").domain,
          (exTld "www.example.com").suffix])
        (exTld "www.example.com").subdomain "A" "9.9.9.9" 600] ∧
    (exRegEmpty.createResp = Except.ok () →
      (create_cmd exTld exRegEmpty ⟨some "k", some "c"⟩ "www.example.com" "A"
          "9.9.9.9" 600).2 =
        ["Successfully created DNS record: " ++ "www.example.com"]) :=
  create_sends_subdomain exTld exRegEmpty ⟨some "k", some "c"⟩ "k" "c"
    "www.example.com" "A" "9.9.9.9" 600 rfl rfl

/-- Counterexample to C3 as stated: the verification check the code runs is
only that the ping response contains a dot, so a response that is not a
syntactically valid IP address but contains a dot passes verification and
both credentials are written to the store. -/
theorem login_stores_on_dotted_nonip :
    spec_isValidIP "a.b" = false ∧
    (login (Except.ok "a.b") true true "k" "c" ⟨none, none⟩).1 =
      (⟨some "k", some "c"⟩ : Store) := by
  exact ⟨rfl, rfl⟩

/-- C3 amended: if ping raises, or returns a response containing no dot,
login aborts before the persist step and the store is exactly its prior
state. -/
theorem login_aborts_without_write (pingResp : Except String String)
    (b1 b2 : Bool) (k c : String) (s : Store)
    (h : (∃ e, pingResp = Except.error e) ∨
      ∃ r, pingResp = Except.ok r ∧ r.toList.contains '.' = false) :
    (login pingResp b1 b2 k c s).1 = s := by
  rcases h with ⟨e, he⟩ | ⟨r, hr, hdot⟩
  · subst he; rfl
  · subst hr
    simp at hdot
    simp [login, hdot]

/-- Witness for C3 amended: a raising ping leaves a previously stored pair
untouched. -/
theorem login_aborts_without_write_witness :
    (login (Except.error "boom") true true "k" "c"
      ⟨some "old", some "older"⟩).1 = (⟨some "old", some "older"⟩ : Store) :=
  login_aborts_without_write (Except.error "boom") true true "k" "c"
    ⟨some "old", some "older"⟩ (Or.inl ⟨"boom", rfl⟩)

/-- Counterexample to C7 as stated: the two keyring writes are separate
calls, so a run in which the first succeeds and the second raises leaves
the store with a fresh apikey next to the prior apisecret — a visible
partial-write state. -/
theorem login_second_write_failure_splits :
    (login (Except.ok "1.2.3.4") true false "nk" "nc"
      ⟨some "ok", some "oc"⟩).1 = (⟨some "nk", some "oc"⟩ : Store) ∧
    (⟨some "nk", some "oc"⟩ : Store) ≠ (⟨some "ok", some "oc"⟩ : Store) ∧
    (⟨some "nk", some "oc"⟩ : Store) ≠ (⟨some "nk", some "nc"⟩ : Store) := by
  refine ⟨rfl, by decide, by decide⟩

/-- C7 amended: once login reaches the persist step, both fields are
overwritten when both writes succeed; when the first write raises, the
store is untouched; when only the second raises, apikey alone is updated
and apisecret keeps its prior value. -/
theorem login_persist_outcomes (r k c : String) (s : Store) (b2 : Bool)
    (h : r.toList.contains '.' = true) :
    (login (Except.ok r) true true k c s).1 = ⟨some k, some c⟩ ∧
    (login (Except.ok r) false b2 k c s).1 = s ∧
    (login (Except.ok r) true false k c s).1 = ⟨some k, s.apisecret⟩ := by
  obtain ⟨a, b⟩ := s
  simp at h
  refine ⟨?_, ?_, ?_⟩ <;> simp [login, h]

/-- Witness for C7 amended: a successful persist on an empty store writes
both fields. -/
theorem login_persist_outcomes_witness :
    (login (Except.ok "1.2.3.4") true true "k" "c" ⟨none, none⟩).1 =
      (⟨some "k", some "c"⟩ : Store) :=
  (login_persist_outcomes "1.2.3.4" "k" "c" ⟨none, none⟩ true rfl).1

/-- Counterexample to C2 as stated: on a store whose apikey entry is
already absent, keyring.delete_password raises, logout does not print the
success message (outcome none: the exception escapes) and the Cleared state
is not reached while apisecret is still stored. -/
theorem logout_raises_on_missing_key :
    (logout ⟨none, some "sec"⟩).2 = none ∧
    (logout ⟨none, some "sec"⟩).1 ≠ (⟨none, none⟩ : Store) := by
  refine ⟨rfl, by decide⟩

/-- C2 amended: logout removes both fields and reports success only when
both are present; when apikey is absent the first delete raises and nothing
changes; when only apisecret is absent, apikey is deleted and then the
second delete raises — logout is not idempotent. -/
theorem logout_outcomes (s : Store) :
    logout s =
      (match s.apikey, s.apisecret with
       | some _, some _ => (⟨none, none⟩, some "Logged out.")
       | none, _ => (s, none)
       | some _, none => (⟨none, none⟩, none)) := by
  obtain ⟨a, b⟩ := s
  cases a <;> cases b <;> rfl

/-- Counterexample to C6 as stated: after a first successful
get_credentials read, a second call in the same invocation still issues
two keyring queries — four store reads over the two calls, not two. -/
theorem get_credentials_queries_every_call :
    (get_credentials_twice ⟨some "k", some "c"⟩).1 = Except.ok ("k", "c") ∧
    (get_credentials_twice ⟨some "k", some "c"⟩).2.2 =
      ["apikey", "apisecret", "apikey", "apisecret"] := ⟨rfl, rfl⟩

/-- C6 amended: get_credentials has no memoization: every call reads both
fields from the store, so two calls issue four queries; repeated calls over
the unchanged store do return equal results. -/
theorem get_credentials_no_cache (s : Store) :
    (get_credentials_traced s).2 = ["apikey", "apisecret"] ∧
    (get_credentials_twice s).2.1 = (get_credentials_twice s).1 ∧
    (get_credentials_twice s).2.2 =
      ["apikey", "apisecret", "apikey", "apisecret"] :=
  ⟨rfl, rfl, rfl⟩

/-- C1: the update handler joins every part of the classifier result, so
for www.example.com the domain argument of the edit call is the full
www.example.com — including the subdomain — while the registrable domain
computed by extract_domain_subdomain is example.com. -/
theorem update_sends_subdomain_in_domain :
    (update_cmd exTld exRegEmpty ⟨some "k", some "c"⟩ "42" "www.example.com"
        "A" "1.2.3.4" 600).1 =
      [RegCall.edit "42" "www.example.com" "www" "A" "1.2.3.4" 600] ∧
    (extract_domain_subdomain exTld "www.example.com").1 = "example.com" ∧
    "www.example.com" ≠ "example.com" := by
  refine ⟨rfl, rfl, by decide⟩

end Porkctl
